import Mathlib

/-!
Verification of `src/gui/pages/page_cursor.py` (project-gameface).

Shallow embedding of the `FrameSelectGesture` settings panel: seven parameter
rows, each binding a slider and a numeric text entry to a shared configuration
store.  The external collaborators (`ConfigManager`, `MouseController`,
tkinter widgets) are modelled at their call interface: every
`set_temp_config` / `apply_config` / `calc_smooth_kernel` call is recorded in
an effect log, the configuration store is read through a `String → Int` map,
and widget state (slider value, entry text, entry background color, whether
the entry variable's write trace is attached) lives in an explicit record.
Python exceptions (`KeyError` from a missing dict key, `ValueError` from
`int()` on a non-numeric string) are modelled with `Except String`.
-/

namespace PageCursor

/-- Constant `MAX_HOLD_TRIG = 2000`, the global clip ceiling used by
`load_initial_config` (line 31 of the source). -/
def MAX_HOLD_TRIG : Int := 2000

/-- One row of the table passed to `create_divs` (lines 54-73):
display name, `cfg_name`, balloon text, `slider_min`, `slider_max`. -/
structure RowSpec where
  showName : String
  cfgName : String
  balloonText : String
  sliderMin : Int
  sliderMax : Int
deriving DecidableEq

/-- The literal dictionary passed to `create_divs` in `__init__`
(lines 54-73 of the source). -/
def rowTable : List RowSpec :=
  [⟨"Move up", "spd_up", "", 0, 100⟩,
   ⟨"Move down", "spd_down", "", 0, 100⟩,
   ⟨"Move right", "spd_right", "", 0, 100⟩,
   ⟨"Move left", "spd_left", "", 0, 100⟩,
   ⟨"(Advanced) Smooth pointer", "pointer_smooth",
    "Controls the smoothness of the mouse cursor.", 1, 100⟩,
   ⟨"(Advanced) Smooth blendshapes", "shape_smooth",
    "Reduces the flickering of the action trigger", 1, 100⟩,
   ⟨"(Advanced) Hold trigger delay(ms)", "hold_trigger_ms",
    "Controls how long the user should hold a gesture", 1, MAX_HOLD_TRIG⟩]

/-- One `div` of `self.divs`: the widget state of a row.  `sliderValue` is the
slider widget's value, `entryText` the `entry_var` contents, `fgColor` the
entry's background color, `traceAttached` whether the write trace installed in
`create_divs` (line 130) is currently attached, and `sliderMin` / `sliderMax`
the bounds bound into the row's callbacks at creation. -/
structure Div where
  sliderValue : Int
  entryText : String
  fgColor : String
  traceAttached : Bool
  sliderMin : Int
  sliderMax : Int
deriving DecidableEq

/-- Calls made on the external collaborators, in order:
`ConfigManager().set_temp_config(field, value)`,
`ConfigManager().apply_config()`, `MouseController().calc_smooth_kernel()`. -/
inductive Effect where
  | set_temp_config (field : String) (value : Int)
  | apply_config
  | calc_smooth_kernel
deriving DecidableEq

/-- The mutable state of a `FrameSelectGesture` instance: the shared
`self.slider_dragging` flag, the `self.divs` dictionary (association list in
insertion order), and the log of collaborator calls made so far. -/
structure FrameState where
  sliderDragging : Bool
  divs : List (String × Div)
  log : List Effect
deriving DecidableEq

/-- Dictionary lookup `self.divs[div_name]` (first matching key). -/
def findDiv (divs : List (String × Div)) (name : String) : Option Div :=
  (divs.find? (fun p => p.1 = name)).map Prod.snd

/-- Update the div stored under `name` (Python mutates the dict value in
place; keys never change). -/
def updateDiv (divs : List (String × Div)) (name : String) (f : Div → Div) :
    List (String × Div) :=
  divs.map (fun p => if p.1 = name then (p.1, f p.2) else p)

/-- Python `str.isdigit` on the ASCII strings this GUI handles: nonempty and
all characters decimal digits (line 157 / line 179 of the source). -/
def str_isdigit (s : String) : Bool :=
  !s.data.isEmpty && s.data.all Char.isDigit

/-- Decimal value of a digit list (most significant first). -/
def digitsToNat (l : List Char) : Nat :=
  l.foldl (fun n c => 10 * n + (c.toNat - 48)) 0

/-- Python `int(s)` on a string already known to satisfy `str.isdigit`. -/
def int_of_digits (s : String) : Int :=
  (digitsToNat s.data : Int)

/-- Python `int(s)` on an arbitrary string, as used unguarded at line 213:
`none` models the `ValueError` raised on a non-numeric string.  Modelled for
optionally signed digit strings; surrounding whitespace, a leading plus sign
and digit-group underscores, which cannot reach this GUI, are not modelled. -/
def str_to_int (s : String) : Option Int :=
  match s.data with
  | '-' :: rest =>
      if !rest.isEmpty && rest.all Char.isDigit then
        some (-(digitsToNat rest : Int))
      else none
  | l =>
      if !l.isEmpty && l.all Char.isDigit then some ((digitsToNat l : Int))
      else none

/-- Membership test `v in range(lo, hi)` for an integer `v` (line 183). -/
def int_in_range (v lo hi : Int) : Bool :=
  decide (lo ≤ v) && decide (v < hi)

/-- The `is_valid_input` flag computed inline by `entry_changed_callback`
(lines 173-184): all-digit text whose value lies in `range(slider_min,
slider_max)`, i.e. the half-open interval. -/
def entry_input_valid (text : String) (slider_min slider_max : Int) : Bool :=
  if !str_isdigit text then false
  else int_in_range (int_of_digits text) slider_min slider_max

/-- Function `validate_entry_input` (lines 153-167): all-digit text, rejected when
below `slider_min` or above `slider_max` (inclusive bounds).  The
`int(slider_min)` / `int(slider_max)` coercions of the source are identities
here because the model passes integers. -/
def validate_entry_input (P : String) (slider_min slider_max : Int) : Bool :=
  if str_isdigit P then
    if int_of_digits P < slider_min then false
    else if int_of_digits P > slider_max then false
    else true
  else false

/-- Handler `entry_changed_callback` (lines 169-197), fired by the write trace on a
row's `entry_var`.  Reads the entry text, validates it against the row's
bounds, then either clears the error color, moves the slider and (when not
dragging) commits, or paints the error color.  The unused trace arguments
`var, index, mode` are dropped. -/
def entry_changed_callback (s : FrameState) (div_name : String)
    (slider_min slider_max : Int) : Except String FrameState :=
  match findDiv s.divs div_name with
  | none => Except.error "KeyError"
  | some div =>
    let entry_value := div.entryText
    if entry_input_valid entry_value slider_min slider_max then
      let new_value := int_of_digits entry_value
      let divs1 := updateDiv s.divs div_name
        (fun d => { d with fgColor := "white", sliderValue := new_value })
      let s1 : FrameState := { s with divs := divs1 }
      if !s1.sliderDragging then
        let newLog := s1.log ++
          [Effect.set_temp_config div_name new_value, Effect.apply_config,
           Effect.calc_smooth_kernel]
        Except.ok { s1 with log := newLog }
      else Except.ok s1
    else
      let divs1 := updateDiv s.divs div_name
        (fun d => { d with fgColor := "#ee9e9d" })
      Except.ok { s with divs := divs1 }

/-- Model of `entry_var.set(text)`: store the text, then fire the write trace — which
calls `entry_changed_callback` with the row's bounds — iff the trace is
currently attached (`load_initial_config` detaches it around its write). -/
def entry_var_set (s : FrameState) (div_name : String) (text : String) :
    Except String FrameState :=
  match findDiv s.divs div_name with
  | none => Except.error "KeyError"
  | some div =>
    let divs1 := updateDiv s.divs div_name
      (fun d => { d with entryText := text })
    let s1 : FrameState := { s with divs := divs1 }
    if div.traceAttached then
      entry_changed_callback s1 div_name div.sliderMin div.sliderMax
    else Except.ok s1

/-- Handler `slider_drag_callback` (lines 199-205): set the dragging flag and write
the slider's integer value into the row's `entry_var` (which fires the entry
trace).  The `value` is the slider's output already truncated by `int()`. -/
def slider_drag_callback (s : FrameState) (div_name : String) (value : Int) :
    Except String FrameState :=
  let s1 : FrameState := { s with sliderDragging := true }
  entry_var_set s1 div_name (toString value)

/-- Handler `slider_mouse_down_callback` (lines 207-208): only sets the flag. -/
def slider_mouse_down_callback (s : FrameState) (div_name : String) :
    Except String FrameState :=
  let _ := div_name
  Except.ok { s with sliderDragging := true }

/-- Handler `slider_mouse_up_callback` (lines 210-216): clear the flag, then
`int(entry_var.get())` — which raises `ValueError` on non-numeric text — and
commit the parsed value. -/
def slider_mouse_up_callback (s : FrameState) (div_name : String) :
    Except String FrameState :=
  let s1 : FrameState := { s with sliderDragging := false }
  match findDiv s1.divs div_name with
  | none => Except.error "KeyError"
  | some div =>
    match str_to_int div.entryText with
    | none => Except.error "ValueError"
    | some new_value =>
      let newLog := s1.log ++
        [Effect.set_temp_config div_name new_value, Effect.apply_config,
         Effect.calc_smooth_kernel]
      Except.ok { s1 with log := newLog }

/-- One row's widget state as built by `create_divs` (lines 94-151): entry
variable empty (fresh `StringVar`), trace attached, default entry color.  The
initial slider position is a toolkit default never observed before
`load_initial_config` overwrites it; the model uses `slider_min`. -/
def create_div (r : RowSpec) : String × Div :=
  (r.cfgName,
   { sliderValue := r.sliderMin, entryText := "", fgColor := "default",
     traceAttached := true, sliderMin := r.sliderMin, sliderMax := r.sliderMax })

/-- Function `create_divs`: the `out_dict`, keyed by `cfg_name` in insertion order. -/
def create_divs (rows : List RowSpec) : List (String × Div) :=
  rows.map create_div

/-- The frame state right after `create_divs`, before `load_initial_config`
(`__init__`, lines 36-75): `slider_dragging = False`, no collaborator call
made yet. -/
def mkFrame : FrameState :=
  { sliderDragging := false, divs := create_divs rowTable, log := [] }

/-- Model of `np.clip(v, a_min, a_max)` on integers. -/
def np_clip (v lo hi : Int) : Int :=
  min (max v lo) hi

/-- The body of the `load_initial_config` loop for one `cfg_name`
(lines 81-92): clip the stored value into `[1, MAX_HOLD_TRIG]`, set the
slider, detach the entry trace, set the entry text, reattach the trace. -/
def load_one (cfg : String → Int) (s : FrameState) (cfg_name : String) :
    Except String FrameState :=
  let cfg_value := np_clip (cfg cfg_name) 1 MAX_HOLD_TRIG
  let divs1 := updateDiv s.divs cfg_name
    (fun d => { d with sliderValue := cfg_value })
  let s1 : FrameState := { s with divs := divs1 }
  let divs2 := updateDiv s1.divs cfg_name
    (fun d => { d with traceAttached := false })
  let s2 : FrameState := { s1 with divs := divs2 }
  match entry_var_set s2 cfg_name (toString cfg_value) with
  | Except.error e => Except.error e
  | Except.ok s3 =>
    let divs3 := updateDiv s3.divs cfg_name
      (fun d => { d with traceAttached := true })
    Except.ok { s3 with divs := divs3 }

/-- Run `load_one` over a list of row keys in order. -/
def load_keys (cfg : String → Int) (s : FrameState) :
    List String → Except String FrameState
  | [] => Except.ok s
  | k :: rest =>
    match load_one cfg s k with
    | Except.error e => Except.error e
    | Except.ok s1 => load_keys cfg s1 rest

/-- Function `load_initial_config` (lines 77-92): iterate over the rows of
`self.divs`, loading each from the configuration store `cfg`. -/
def load_initial_config (cfg : String → Int) (s : FrameState) :
    Except String FrameState :=
  load_keys cfg s (s.divs.map Prod.fst)

/-- The state of a freshly constructed `FrameSelectGesture` under
configuration store `cfg` (`__init__` ends with `load_initial_config`). -/
def initState (cfg : String → Int) : Except String FrameState :=
  load_initial_config cfg mkFrame

/-- Method `inner_refresh_profile` (lines 218-219) just reloads from the store. -/
def inner_refresh_profile (cfg : String → Int) (s : FrameState) :
    Except String FrameState :=
  load_initial_config cfg s

/-- User events: typing into a row's entry (the entry variable takes the new
text and its trace fires), pressing the mouse on a slider, a drag movement
reported by the slider, and releasing the mouse. -/
inductive Event where
  | textEdit (div_name : String) (text : String)
  | sliderPress (div_name : String)
  | sliderMove (div_name : String) (value : Int)
  | sliderRelease (div_name : String)
deriving DecidableEq

/-- The `div_name` an event is dispatched to. -/
def Event.divName : Event → String
  | Event.textEdit d _ => d
  | Event.sliderPress d => d
  | Event.sliderMove d _ => d
  | Event.sliderRelease d => d

/-- Dispatch one event to the handler the source binds it to. -/
def step (s : FrameState) : Event → Except String FrameState
  | Event.textEdit d t => entry_var_set s d t
  | Event.sliderPress d => slider_mouse_down_callback s d
  | Event.sliderMove d v => slider_drag_callback s d v
  | Event.sliderRelease d => slider_mouse_up_callback s d

/-- Run a sequence of user events; the first uncaught Python exception
aborts the run. -/
def run (s : FrameState) : List Event → Except String FrameState
  | [] => Except.ok s
  | e :: rest =>
    match step s e with
    | Except.error msg => Except.error msg
    | Except.ok s1 => run s1 rest

/-- Returns true iff the handler returned normally (no Python exception). -/
def stepOk : Except String FrameState → Bool
  | Except.ok _ => true
  | Except.error _ => false

/-! ### Abbreviations used in theorem statements -/

/-- The div update performed by `entry_var.set` before the trace fires. -/
def setEntryText (t : String) (x : Div) : Div :=
  { x with entryText := t }

/-- The div update of the valid branch of `entry_changed_callback`
(lines 188-189): clear the error color, move the slider. -/
def setValid (v : Int) (x : Div) : Div :=
  { x with fgColor := "white", sliderValue := v }

/-- The div update of the invalid branch (line 197): error color. -/
def setError (x : Div) : Div :=
  { x with fgColor := "#ee9e9d" }

/-- The collaborator calls of one commit: exactly one
`set_temp_config(d, v)`, then one `apply_config()`, then one
`calc_smooth_kernel()`. -/
def commitEffects (d : String) (v : Int) : List Effect :=
  [Effect.set_temp_config d v, Effect.apply_config, Effect.calc_smooth_kernel]

/-- A one-row state used to instantiate theorems on concrete inputs. -/
def sampleDiv : Div :=
  { sliderValue := 50, entryText := "55", fgColor := "white",
    traceAttached := true, sliderMin := 0, sliderMax := 100 }

/-- A concrete frame holding `sampleDiv` under key `spd_up`, not dragging. -/
def sampleState : FrameState :=
  { sliderDragging := false, divs := [("spd_up", sampleDiv)], log := [] }

/-- State `sampleState` with the dragging flag raised. -/
def sampleDragState : FrameState :=
  { sliderDragging := true, divs := [("spd_up", sampleDiv)], log := [] }

/-- A row whose entry variable holds non-numeric user text. -/
def badDiv : Div :=
  { sliderValue := 0, entryText := "abc", fgColor := "#ee9e9d",
    traceAttached := true, sliderMin := 0, sliderMax := 100 }

/-- A concrete frame holding `badDiv` under key `spd_up`. -/
def badState : FrameState :=
  { sliderDragging := false, divs := [("spd_up", badDiv)], log := [] }

/-- A concrete configuration store whose every field reads 5000 —
above `MAX_HOLD_TRIG` and far above the speed rows' declared max of 100. -/
def exampleConfig : String → Int := fun _ => 5000

/-- The div produced by loading row `r` from store `cfg`:
slider and entry both hold the clipped store value, trace reattached,
entry color untouched (the change handler never fired). -/
def loadedDiv (cfg : String → Int) (r : RowSpec) : Div :=
  { sliderValue := np_clip (cfg r.cfgName) 1 MAX_HOLD_TRIG,
    entryText := toString (np_clip (cfg r.cfgName) 1 MAX_HOLD_TRIG),
    fgColor := "default", traceAttached := true,
    sliderMin := r.sliderMin, sliderMax := r.sliderMax }

/-- The full frame state produced by `__init__` under store `cfg`. -/
def loadedState (cfg : String → Int) : FrameState :=
  { sliderDragging := false,
    divs := rowTable.map (fun r => (r.cfgName, loadedDiv cfg r)), log := [] }

/-- The first row of the table, used as a concrete witness row. -/
def exampleRow : RowSpec := ⟨"Move up", "spd_up", "", 0, 100⟩

/-- The state shape every constructed `FrameSelectGesture` has: exactly the
seven row keys of `create_divs`, in insertion order. -/
def standardShape (s : FrameState) : Prop :=
  ∃ d1 d2 d3 d4 d5 d6 d7 : Div,
    s.divs = [("spd_up", d1), ("spd_down", d2), ("spd_right", d3),
      ("spd_left", d4), ("pointer_smooth", d5), ("shape_smooth", d6),
      ("hold_trigger_ms", d7)]

/-- What `load_one` does to one row's div: slider and entry text loaded from
the clipped store value, trace reattached; all other fields kept. -/
def loadDivFrom (cfg : String → Int) (k : String) (x : Div) : Div :=
  { x with sliderValue := np_clip (cfg k) 1 MAX_HOLD_TRIG,
           entryText := toString (np_clip (cfg k) 1 MAX_HOLD_TRIG),
           traceAttached := true }

/-! ### Helper lemmas -/

theorem findDiv_updateDiv_self (divs : List (String × Div)) (name : String)
    (f : Div → Div) :
    findDiv (updateDiv divs name f) name = (findDiv divs name).map f := by
  simp only [findDiv, updateDiv]
  induction divs with
  | nil => rfl
  | cons p t ih =>
    by_cases h : p.1 = name
    · rw [List.map_cons, if_pos h, List.find?_cons_of_pos _ (by simp [h]),
        List.find?_cons_of_pos _ (by simp [h])]
      simp
    · rw [List.map_cons, if_neg h, List.find?_cons_of_neg _ (by simp [h]),
        List.find?_cons_of_neg _ (by simp [h])]
      exact ih

theorem findDiv_updateDiv_ne (divs : List (String × Div)) (name name2 : String)
    (f : Div → Div) (h : name2 ≠ name) :
    findDiv (updateDiv divs name f) name2 = findDiv divs name2 := by
  simp only [findDiv, updateDiv]
  induction divs with
  | nil => rfl
  | cons p t ih =>
    by_cases hp : p.1 = name
    · rw [List.map_cons, if_pos hp, List.find?_cons_of_neg _ (by simp [hp, Ne.symm h]),
        List.find?_cons_of_neg _ (by simp [hp, Ne.symm h])]
      exact ih
    · by_cases hq : p.1 = name2
      · rw [List.map_cons, if_neg hp, List.find?_cons_of_pos _ (by simp [hq]),
          List.find?_cons_of_pos _ (by simp [hq])]
      · rw [List.map_cons, if_neg hp, List.find?_cons_of_neg _ (by simp [hq]),
          List.find?_cons_of_neg _ (by simp [hq])]
        exact ih

theorem entry_input_valid_iff (t : String) (lo hi : Int) :
    entry_input_valid t lo hi = true ↔
      (str_isdigit t = true ∧ lo ≤ int_of_digits t ∧ int_of_digits t < hi) := by
  cases h : str_isdigit t <;> simp [entry_input_valid, int_in_range, h, and_assoc]

/-- Effect of writing `text` into a row's entry variable with the trace
attached: the trace fires `entry_changed_callback`, whose outcome splits on
the inline validity test and on the dragging flag. -/
theorem entry_var_set_spec (s : FrameState) (d : String) (div : Div)
    (t : String) (hfind : findDiv s.divs d = some div)
    (hatt : div.traceAttached = true) :
    entry_var_set s d t =
      if entry_input_valid t div.sliderMin div.sliderMax then
        (if s.sliderDragging then
          Except.ok { s with divs := updateDiv (updateDiv s.divs d (setEntryText t)) d (setValid (int_of_digits t)) }
        else
          Except.ok { s with divs := updateDiv (updateDiv s.divs d (setEntryText t)) d (setValid (int_of_digits t)), log := s.log ++ commitEffects d (int_of_digits t) })
      else
        Except.ok { s with divs := updateDiv (updateDiv s.divs d (setEntryText t)) d setError } := by
  simp only [entry_var_set, hfind, hatt, if_true, entry_changed_callback,
    findDiv_updateDiv_self, Option.map_some']
  cases hv : entry_input_valid t div.sliderMin div.sliderMax <;>
    cases hd : s.sliderDragging <;>
      (simp [hv, hd, setEntryText, setValid, setError, commitEffects]; try rfl)

/-- Writing any text into an existing row's entry variable never raises:
every branch of the trace handler returns normally. -/
theorem entry_var_set_never_raises (s : FrameState) (d : String) (div : Div)
    (t : String) (hfind : findDiv s.divs d = some div) :
    stepOk (entry_var_set s d t) = true := by
  cases hatt : div.traceAttached
  · simp [entry_var_set, hfind, hatt, stepOk]
  · rw [entry_var_set_spec s d div t hfind hatt]
    cases hv : entry_input_valid t div.sliderMin div.sliderMax <;>
      cases hd : s.sliderDragging <;>
        simp [hv, hd, stepOk]

/-- Characterization of `validate_entry_input` in terms of `str_isdigit` and inclusive bounds. -/
theorem validate_entry_input_eq_true_iff (P : String) (lo hi : Int) :
    validate_entry_input P lo hi = true ↔
      (str_isdigit P = true ∧ lo ≤ int_of_digits P ∧ int_of_digits P ≤ hi) := by
  cases h : str_isdigit P
  · simp [validate_entry_input, h]
  · simp only [validate_entry_input, h, if_true, true_and]
    split_ifs with h1 h2 <;> simp <;> omega

/-! ### Claim theorems -/

/-- Claim C7: the standalone validation helper `validate_entry_input`, given
candidate text and bounds `[min, max]`, returns true iff the text is composed
entirely of decimal digits (and is nonempty, as Python's `str.isdigit`
requires) and its integer value lies within the declared inclusive bounds. -/
theorem C7_validate_entry_input_characterization (P : String) (lo hi : Int) :
    validate_entry_input P lo hi = true ↔
      (P.data ≠ [] ∧ (∀ c ∈ P.data, c.isDigit = true) ∧
       lo ≤ int_of_digits P ∧ int_of_digits P ≤ hi) := by
  rw [validate_entry_input_eq_true_iff]
  simp [str_isdigit, List.all_eq_true, List.isEmpty_iff, and_assoc]

/-- Claim C9 is false as stated: the constructed row set does not satisfy
`min ≥ 1` for every row — the row keyed `spd_up` (and the three other speed
rows) declares `slider_min = 0`. -/
theorem C9_counterexample :
    (findDiv mkFrame.divs "spd_up").map Div.sliderMin = some 0 ∧
    (mkFrame.divs.all fun p => decide (1 ≤ p.2.sliderMin)) = false := by
  decide

/-- Claim C9 amended: for every row in the constructed Row Set, the declared
range satisfies `min ≥ 0`; only the three advanced rows declare `min = 1`. -/
theorem C9_rows_min_nonneg :
    (mkFrame.divs.all fun p => decide (0 ≤ p.2.sliderMin)) = true ∧
    (rowTable.all fun r => decide (0 ≤ r.sliderMin)) = true ∧
    (rowTable.all fun r => decide (r.sliderMin ≤ r.sliderMax)) = true := by
  decide

/-- Claim C10: for every row, the text spelling the row's declared `max` is
accepted by the standalone helper `validate_entry_input` (inclusive upper
bound) but rejected by the inline validity test of `entry_changed_callback`
(exclusive upper bound via `range(min, max)`); the two validations are
therefore not equivalent.  The helper is moreover dead code: the entry's
`validatecommand` is left commented out at line 135, and no handler of the
model's `step` relation calls `validate_entry_input`. -/
theorem C10_validator_handler_disagree_at_max :
    (rowTable.all fun r => validate_entry_input (toString r.sliderMax) r.sliderMin r.sliderMax && !(entry_input_valid (toString r.sliderMax) r.sliderMin r.sliderMax)) = true := by
  decide

/-- Claim C5 is false as stated: starting from a freshly constructed frame,
the user event sequence "type `abc` into the `spd_up` entry, press the mouse
on its slider, release without moving" reaches `slider_mouse_up_callback`
with non-numeric entry text, and `int(entry_var.get())` at line 213 raises a
`ValueError` that propagates to the caller. -/
theorem C5_counterexample :
    Except.bind (initState exampleConfig) (fun s0 => run s0 [Event.textEdit "spd_up" "abc", Event.sliderPress "spd_up", Event.sliderRelease "spd_up"]) = Except.error "ValueError" := by
  rfl

/-- Claim C5 amended: for any frame state and any event addressed to an
existing row, text edits, slider presses and drag movements never raise; the
only exception path is the slider-release handler, and it raises exactly when
the row's current entry text does not parse as an integer. -/
theorem C5_only_release_raises (s : FrameState) (e : Event) (div : Div)
    (hfind : findDiv s.divs e.divName = some div)
    (herr : stepOk (step s e) = false) :
    e = Event.sliderRelease e.divName ∧ str_to_int div.entryText = none := by
  cases e with
  | textEdit d t =>
    have hf : findDiv s.divs d = some div := hfind
    exact Bool.noConfusion ((entry_var_set_never_raises s d div t hf).symm.trans herr)
  | sliderPress d =>
    exact Bool.noConfusion ((rfl : stepOk (step s (Event.sliderPress d)) = true).symm.trans herr)
  | sliderMove d v =>
    have hf : findDiv ({ s with sliderDragging := true } : FrameState).divs d = some div := hfind
    exact Bool.noConfusion ((entry_var_set_never_raises { s with sliderDragging := true } d div (toString v) hf).symm.trans herr)
  | sliderRelease d =>
    have hf : findDiv s.divs d = some div := hfind
    refine ⟨rfl, ?_⟩
    cases hp : str_to_int div.entryText with
    | none => rfl
    | some v =>
      have hok : stepOk (step s (Event.sliderRelease d)) = true := by
        simp [step, slider_mouse_up_callback, hf, hp, stepOk]
      exact Bool.noConfusion (hok.symm.trans herr)

/-- Witness for the amended C5 on a concrete input: releasing over a row
whose entry text is `abc` is an exception, and the theorem classifies it. -/
theorem C5_only_release_raises_witness :
    Event.sliderRelease "spd_up" = Event.sliderRelease (Event.divName (Event.sliderRelease "spd_up")) ∧ str_to_int badDiv.entryText = none :=
  C5_only_release_raises badState (Event.sliderRelease "spd_up") badDiv (by decide) (by decide)

/-- Claim C1: during a drag, every intermediate slider movement updates the
row's entry text to the new integer value while appending nothing to the
collaborator-call log (zero stage/apply calls), and the release event — given
that the entry's current text parses as the integer `v` — performs exactly
one `set_temp_config(d, v)` followed by one `apply_config` and one
`calc_smooth_kernel`, touching no widget. -/
theorem C1_drag_protocol (s : FrameState) (d : String) (div : Div)
    (hfind : findDiv s.divs d = some div) (hatt : div.traceAttached = true) :
    (∀ v : Int, ∃ s2 div2, step s (Event.sliderMove d v) = Except.ok s2 ∧
      findDiv s2.divs d = some div2 ∧ div2.entryText = toString v ∧
      s2.log = s.log ∧ s2.sliderDragging = true) ∧
    (∀ v : Int, str_to_int div.entryText = some v →
      ∃ s2, step s (Event.sliderRelease d) = Except.ok s2 ∧
        s2.log = s.log ++ commitEffects d v ∧ s2.sliderDragging = false ∧
        s2.divs = s.divs) := by
  constructor
  · intro v
    have hfind1 : findDiv ({ s with sliderDragging := true } : FrameState).divs d = some div := hfind
    have hs := entry_var_set_spec { s with sliderDragging := true } d div (toString v) hfind1 hatt
    cases hv : entry_input_valid (toString v) div.sliderMin div.sliderMax
    · rw [hv] at hs
      simp only [Bool.false_eq_true, if_false] at hs
      exact ⟨_, setError (setEntryText (toString v) div), hs,
        by simp [findDiv_updateDiv_self, hfind], rfl, rfl, rfl⟩
    · rw [hv] at hs
      simp only [if_true] at hs
      exact ⟨_, setValid (int_of_digits (toString v)) (setEntryText (toString v) div), hs,
        by simp [findDiv_updateDiv_self, hfind], rfl, rfl, rfl⟩
  · intro v hv
    have hstep : step s (Event.sliderRelease d) = Except.ok { s with sliderDragging := false, log := s.log ++ commitEffects d v } := by
      simp [step, slider_mouse_up_callback, hfind, hv, commitEffects]
    exact ⟨_, hstep, rfl, rfl, rfl⟩

/-- Witness for C1 at a concrete drag state: releasing over the row whose
entry text is `55` commits exactly `set_temp_config, apply_config,
calc_smooth_kernel` with value 55. -/
theorem C1_drag_protocol_witness :
    ∃ s2, step sampleState (Event.sliderRelease "spd_up") = Except.ok s2 ∧
      s2.log = sampleState.log ++ commitEffects "spd_up" 55 ∧
      s2.sliderDragging = false ∧ s2.divs = sampleState.divs :=
  (C1_drag_protocol sampleState "spd_up" sampleDiv (by decide) (by decide)).2 55 (by decide)

/-- Claim C2: a text edit whose content is all-digit and in the half-open
range `[min, max)` sets the slider to the parsed integer, clears the entry's
error state, and appends exactly one `set_temp_config` with that value, one
`apply_config` and one `calc_smooth_kernel` when the dragging flag is false —
and appends nothing when the flag is true, while still setting the slider. -/
theorem C2_valid_edit (s : FrameState) (d : String) (div : Div) (t : String)
    (hfind : findDiv s.divs d = some div) (hatt : div.traceAttached = true)
    (hdig : str_isdigit t = true) (hlo : div.sliderMin ≤ int_of_digits t)
    (hhi : int_of_digits t < div.sliderMax) :
    ∃ s2 div2, step s (Event.textEdit d t) = Except.ok s2 ∧
      findDiv s2.divs d = some div2 ∧ div2.sliderValue = int_of_digits t ∧
      div2.fgColor = "white" ∧ div2.entryText = t ∧
      s2.log = s.log ++ (if s.sliderDragging then [] else commitEffects d (int_of_digits t)) ∧
      s2.sliderDragging = s.sliderDragging := by
  have hv : entry_input_valid t div.sliderMin div.sliderMax = true :=
    (entry_input_valid_iff t _ _).mpr ⟨hdig, hlo, hhi⟩
  have hs := entry_var_set_spec s d div t hfind hatt
  rw [hv] at hs
  simp only [if_true] at hs
  cases hd : s.sliderDragging <;> rw [hd] at hs <;> simp only [Bool.false_eq_true, if_false, if_true] at hs
  · exact ⟨_, setValid (int_of_digits t) (setEntryText t div), hs,
      by simp [findDiv_updateDiv_self, hfind], rfl, rfl, rfl, by simp [hd], rfl⟩
  · exact ⟨_, setValid (int_of_digits t) (setEntryText t div), hs,
      by simp [findDiv_updateDiv_self, hfind], rfl, rfl, rfl, by simp [hd], rfl⟩

/-- Witness for C2: typing `80` into the sample row (not dragging) moves the
slider to 80, clears the error state, and commits once. -/
theorem C2_valid_edit_witness :
    ∃ s2 div2, step sampleState (Event.textEdit "spd_up" "80") = Except.ok s2 ∧
      findDiv s2.divs "spd_up" = some div2 ∧ div2.sliderValue = int_of_digits "80" ∧
      div2.fgColor = "white" ∧ div2.entryText = "80" ∧
      s2.log = sampleState.log ++ (if sampleState.sliderDragging then [] else commitEffects "spd_up" (int_of_digits "80")) ∧
      s2.sliderDragging = sampleState.sliderDragging :=
  C2_valid_edit sampleState "spd_up" sampleDiv "80" (by decide) (by decide)
    (by decide) (by decide) (by decide)

/-- Claim C4: a text edit rejected by the inline validity test (non-digit or
out of range) leaves the collaborator-call log unchanged (no stage, no
apply), leaves the slider where it was, and paints the entry's error color;
any subsequent valid edit repaints it white. -/
theorem C4_invalid_edit (s : FrameState) (d : String) (div : Div) (t : String)
    (hfind : findDiv s.divs d = some div) (hatt : div.traceAttached = true)
    (hbad : entry_input_valid t div.sliderMin div.sliderMax = false) :
    ∃ s2 div2, step s (Event.textEdit d t) = Except.ok s2 ∧
      s2.log = s.log ∧ findDiv s2.divs d = some div2 ∧
      div2.sliderValue = div.sliderValue ∧ div2.fgColor = "#ee9e9d" ∧
      div2.entryText = t ∧
      (∀ t2, entry_input_valid t2 div.sliderMin div.sliderMax = true →
        ∃ s3 div3, step s2 (Event.textEdit d t2) = Except.ok s3 ∧
          findDiv s3.divs d = some div3 ∧ div3.fgColor = "white") := by
  have hs := entry_var_set_spec s d div t hfind hatt
  rw [hbad] at hs
  simp only [Bool.false_eq_true, if_false] at hs
  have hfind2 : findDiv (updateDiv (updateDiv s.divs d (setEntryText t)) d setError) d = some (setError (setEntryText t div)) := by
    simp [findDiv_updateDiv_self, hfind, setEntryText, setError]
  refine ⟨_, setError (setEntryText t div), hs, rfl, hfind2, rfl, rfl, rfl, ?_⟩
  intro t2 hval2
  have hfind2b : findDiv ({ s with divs := updateDiv (updateDiv s.divs d (setEntryText t)) d setError } : FrameState).divs d = some (setError (setEntryText t div)) := hfind2
  have hs2 := entry_var_set_spec { s with divs := updateDiv (updateDiv s.divs d (setEntryText t)) d setError } d (setError (setEntryText t div)) t2 hfind2b hatt
  rw [show entry_input_valid t2 (setError (setEntryText t div)).sliderMin (setError (setEntryText t div)).sliderMax = true from hval2] at hs2
  simp only [if_true] at hs2
  cases hd : s.sliderDragging <;>
    simp only [hd, Bool.false_eq_true, if_false, if_true] at hs2
  · exact ⟨_, setValid (int_of_digits t2) (setEntryText t2 (setError (setEntryText t div))), hs2,
      by simp [findDiv_updateDiv_self, hfind2], rfl⟩
  · exact ⟨_, setValid (int_of_digits t2) (setEntryText t2 (setError (setEntryText t div))), hs2,
      by simp [findDiv_updateDiv_self, hfind2], rfl⟩

/-- Witness for C4: typing the out-of-range `999` into the sample row leaves
the log empty and paints the error color; typing `12` afterwards repaints
white. -/
theorem C4_invalid_edit_witness :
    ∃ s2 div2, step sampleState (Event.textEdit "spd_up" "999") = Except.ok s2 ∧
      s2.log = sampleState.log ∧ findDiv s2.divs "spd_up" = some div2 ∧
      div2.sliderValue = sampleDiv.sliderValue ∧ div2.fgColor = "#ee9e9d" ∧
      div2.entryText = "999" ∧
      (∀ t2, entry_input_valid t2 sampleDiv.sliderMin sampleDiv.sliderMax = true →
        ∃ s3 div3, step s2 (Event.textEdit "spd_up" t2) = Except.ok s3 ∧
          findDiv s3.divs "spd_up" = some div3 ∧ div3.fgColor = "white") :=
  C4_invalid_edit sampleState "spd_up" sampleDiv "999" (by decide) (by decide) (by decide)

/-- Claim C6: on an all-digit text edit, the entry change handler accepts
(clears to white) exactly when the integer value lies in the half-open
interval `[min, max)`; in particular the text spelling the row's own upper
bound — inside the slider's inclusive range — is painted as an error. -/
theorem C6_halfopen_acceptance (s : FrameState) (d : String) (div : Div)
    (t : String) (hfind : findDiv s.divs d = some div)
    (hatt : div.traceAttached = true) (hdig : str_isdigit t = true) :
    ∃ s2 div2, step s (Event.textEdit d t) = Except.ok s2 ∧
      findDiv s2.divs d = some div2 ∧
      (div2.fgColor = "white" ↔ (div.sliderMin ≤ int_of_digits t ∧ int_of_digits t < div.sliderMax)) ∧
      (int_of_digits t = div.sliderMax → div2.fgColor = "#ee9e9d") := by
  have hs := entry_var_set_spec s d div t hfind hatt
  cases hv : entry_input_valid t div.sliderMin div.sliderMax
  · rw [hv] at hs
    simp only [Bool.false_eq_true, if_false] at hs
    refine ⟨_, setError (setEntryText t div), hs,
      by simp [findDiv_updateDiv_self, hfind], ?_, fun _ => rfl⟩
    have hnot := (entry_input_valid_iff t div.sliderMin div.sliderMax).not.mp (by simp [hv])
    simp only [hdig, true_and] at hnot
    constructor
    · intro hwhite
      exact absurd hwhite (by simp [setError])
    · intro hin
      exact absurd hin (by tauto)
  · rw [hv] at hs
    simp only [if_true] at hs
    have hbounds := (entry_input_valid_iff t div.sliderMin div.sliderMax).mp hv
    cases hd : s.sliderDragging <;>
      simp only [hd, Bool.false_eq_true, if_false, if_true] at hs
    · refine ⟨_, setValid (int_of_digits t) (setEntryText t div), hs,
        by simp [findDiv_updateDiv_self, hfind], by simp [setValid, hbounds.2.1, hbounds.2.2], ?_⟩
      intro heq
      exact absurd hbounds.2.2 (by omega)
    · refine ⟨_, setValid (int_of_digits t) (setEntryText t div), hs,
        by simp [findDiv_updateDiv_self, hfind], by simp [setValid, hbounds.2.1, hbounds.2.2], ?_⟩
      intro heq
      exact absurd hbounds.2.2 (by omega)

/-- Witness for C6: the sample row has bounds `[0, 100]`; the text `100` —
the row's own declared max — is painted as an error by the handler. -/
theorem C6_halfopen_acceptance_witness :
    ∃ s2 div2, step sampleState (Event.textEdit "spd_up" "100") = Except.ok s2 ∧
      findDiv s2.divs "spd_up" = some div2 ∧
      (div2.fgColor = "white" ↔ (sampleDiv.sliderMin ≤ int_of_digits "100" ∧ int_of_digits "100" < sampleDiv.sliderMax)) ∧
      (int_of_digits "100" = sampleDiv.sliderMax → div2.fgColor = "#ee9e9d") :=
  C6_halfopen_acceptance sampleState "spd_up" sampleDiv "100" (by decide)
    (by decide) (by decide)

/-- Loading any standard-shaped frame rewrites exactly the widget fields of
each row and nothing else: same log, same flag, each div put through
`loadDivFrom`. -/
theorem load_standard (cfg : String → Int) (s : FrameState)
    (hs : standardShape s) :
    load_initial_config cfg s = Except.ok { sliderDragging := s.sliderDragging, divs := s.divs.map (fun p => (p.1, loadDivFrom cfg p.1 p.2)), log := s.log } := by
  obtain ⟨d1, d2, d3, d4, d5, d6, d7, hdiv⟩ := hs
  obtain ⟨drag, divs, lg⟩ := s
  simp only at hdiv
  subst hdiv
  simp [load_initial_config, load_keys, load_one, entry_var_set, findDiv,
    updateDiv, loadDivFrom, List.find?]

/-- The constructor computes `loadedState`: every row loaded from the store,
no collaborator call made, no trace left detached. -/
theorem initState_eq (cfg : String → Int) :
    initState cfg = Except.ok (loadedState cfg) := by
  have h := load_standard cfg mkFrame ⟨_, _, _, _, _, _, _, rfl⟩
  rw [show initState cfg = load_initial_config cfg mkFrame from rfl, h]
  simp [mkFrame, create_divs, create_div, rowTable, loadedState, loadedDiv,
    loadDivFrom]

/-- Claim C3: after `load_initial_config` at construction, every row's slider
value and entry text both equal `clip(store.get(config_key), 1,
MAX_HOLD_TRIG)` — the clip ceiling being the global `MAX_HOLD_TRIG`,
independent of the row's own declared bounds. -/
theorem C3_loaded_values (cfg : String → Int) (s : FrameState)
    (h : initState cfg = Except.ok s) :
    ∀ p ∈ s.divs, p.2.sliderValue = np_clip (cfg p.1) 1 MAX_HOLD_TRIG ∧
      p.2.entryText = toString (np_clip (cfg p.1) 1 MAX_HOLD_TRIG) := by
  rw [initState_eq] at h
  obtain rfl : loadedState cfg = s := Except.ok.inj h
  intro p hp
  simp only [loadedState, rowTable, List.map_cons, List.map_nil,
    List.mem_cons, List.not_mem_nil, or_false] at hp
  rcases hp with rfl | rfl | rfl | rfl | rfl | rfl | rfl <;> exact ⟨rfl, rfl⟩

/-- Witness for C3 under the concrete store reading 5000 everywhere: the
`spd_up` row (declared max 100) holds the globally clipped value — slider
2000, entry text `2000`. -/
theorem C3_loaded_values_witness :
    ("spd_up", loadedDiv exampleConfig exampleRow).2.sliderValue = np_clip (exampleConfig "spd_up") 1 MAX_HOLD_TRIG ∧
      ("spd_up", loadedDiv exampleConfig exampleRow).2.entryText = toString (np_clip (exampleConfig "spd_up") 1 MAX_HOLD_TRIG) :=
  C3_loaded_values exampleConfig (loadedState exampleConfig) rfl
    ("spd_up", loadedDiv exampleConfig exampleRow) (by decide)

/-- Claim C8: `load_initial_config` (and hence `inner_refresh_profile`)
writes nothing back to the configuration store — the collaborator-call log is
unchanged — and only rewrites each row's slider value and entry text from the
clipped store value; every trace ends reattached, and each entry's color is
untouched because the change observer is detached across the programmatic
entry write (`loadDivFrom` keeps `fgColor`, which any firing of
`entry_changed_callback` would have overwritten). -/
theorem C8_load_no_writeback (cfg : String → Int) (s : FrameState)
    (hs : standardShape s) :
    ∃ s2, load_initial_config cfg s = Except.ok s2 ∧
      s2.log = s.log ∧ s2.sliderDragging = s.sliderDragging ∧
      s2.divs = s.divs.map (fun p => (p.1, loadDivFrom cfg p.1 p.2)) ∧
      inner_refresh_profile cfg s = load_initial_config cfg s :=
  ⟨_, load_standard cfg s hs, rfl, rfl, rfl, rfl⟩

/-- Witness for C8 on the freshly created frame under the concrete store
reading 5000: the load succeeds, logs nothing, and rewrites exactly the
widget fields. -/
theorem C8_load_no_writeback_witness :
    ∃ s2, load_initial_config exampleConfig mkFrame = Except.ok s2 ∧
      s2.log = mkFrame.log ∧ s2.sliderDragging = mkFrame.sliderDragging ∧
      s2.divs = mkFrame.divs.map (fun p => (p.1, loadDivFrom exampleConfig p.1 p.2)) ∧
      inner_refresh_profile exampleConfig mkFrame = load_initial_config exampleConfig mkFrame :=
  C8_load_no_writeback exampleConfig mkFrame ⟨_, _, _, _, _, _, _, rfl⟩

end PageCursor
